import Mathlib

set_option autoImplicit false

/-!
Verification development for the Deta Bank CSV-upload portal
(`frontend_mysql/app.py`): a shallow embedding of its ingestion-and-registry
core (type inference, schema reconciliation, primary-key validation,
INSERT IGNORE bulk insert, upload registry) together with theorems about
the embedded definitions.
-/

namespace CreditDefault

/-! ## Python string helpers

Character-level models of the Python string operations the app uses:
`str.lower`, `str.strip`, and the whitespace class of the `re` module
(`\s` = space, tab, newline, carriage return, vertical tab, form feed).
Only the ASCII fragment is modelled; every string the app manipulates in the
modelled paths is ASCII.
-/

/-- The characters matched by Python's `\s` and stripped by `str.strip()`
(ASCII fragment). -/
def isPySpace (c : Char) : Bool :=
  c == ' ' || c == '\t' || c == '\n' || c == '\r' || c == '\x0b' || c == '\x0c'

/-- Python `str.strip()` on a character list: drop whitespace from both ends. -/
def pyStrip (cs : List Char) : List Char :=
  ((cs.dropWhile isPySpace).reverse.dropWhile isPySpace).reverse

/-- Python `str.strip()` on strings. -/
def pyStripS (s : String) : String :=
  ⟨pyStrip s.data⟩

/-- Python `str.lower()` (ASCII fragment). -/
def pyLower (s : String) : String :=
  ⟨s.data.map Char.toLower⟩

/-- Boolean string membership in a list, as in Python's `in` on a list of
column names. -/
def strMem (c : String) : List String → Bool
  | [] => false
  | x :: xs => if x = c then true else strMem c xs

/-! ## The sanitizer (`sanitize_error_message`, app.py lines 311-336)

Each `re.sub` call of the Python function is embedded as a specialised
matcher plus a generic leftmost-scan substitution driver.  A matcher
receives the remaining text and, when the pattern matches at the current
position, returns the replacement text and the length of the match
(always at least one character for every pattern used here, which is what
makes the driver total).
-/

/-- Leftmost, non-overlapping substitution driver for `re.sub`: scan left to
right; at each position either replace a match and resume after it, or move
one character forward.  `fuel` bounds the recursion; it is initialised to the
text length, which suffices because every match consumes at least one
character. -/
def substAux (matchAt : List Char → Option (List Char × Nat)) :
    Nat → List Char → List Char
  | 0, cs => cs
  | _, [] => []
  | fuel + 1, c :: cs =>
    match matchAt (c :: cs) with
    | some (repl, n) => repl ++ substAux matchAt fuel (cs.drop (n - 1))
    | none => c :: substAux matchAt fuel cs

/-- One `re.sub` pass over a character list. -/
def subst (matchAt : List Char → Option (List Char × Nat)) (cs : List Char) :
    List Char :=
  substAux matchAt cs.length cs

/-- Case-insensitive literal prefix test (the pattern is given in lowercase),
modelling a literal alternative under `re.IGNORECASE`. -/
def ciPrefixAt : List Char → List Char → Bool
  | [], _ => true
  | _ :: _, [] => false
  | p :: ps, c :: cs => (Char.toLower c == p) && ciPrefixAt ps cs

/-- Length of the maximal digit run at the head of the text (`\d` run). -/
def digitRunLen (cs : List Char) : Nat :=
  (cs.takeWhile Char.isDigit).length

/-- Matcher for `\d{1,3}\.` at the current position.  Because a digit cannot
also be a dot, the greedy `\d{1,3}` is forced to consume the whole digit run,
so the group matches exactly when the run has length 1 to 3 and is followed by
a literal dot. -/
def matchOctetDot (cs : List Char) : Option Nat :=
  let r := digitRunLen cs
  if 1 ≤ r ∧ r ≤ 3 ∧ (cs.drop r).head? = some '.' then some (r + 1) else none

/-- Matcher for the IP-address pattern
`\d{1,3}\.\d{1,3}\.\d{1,3}\.\d{1,3}` (app.py line 322), replacement
`[HOST]`.  The final `\d{1,3}` greedily takes up to three digits of the
trailing run. -/
def matchIP (cs : List Char) : Option (List Char × Nat) := do
  let a ← matchOctetDot cs
  let b ← matchOctetDot (cs.drop a)
  let c ← matchOctetDot ((cs.drop a).drop b)
  let r := digitRunLen (((cs.drop a).drop b).drop c)
  if 1 ≤ r then pure ("[HOST]".data, a + b + c + min r 3) else failure

/-- Matcher for `localhost|127\.0\.0\.1` with `re.IGNORECASE`
(app.py line 323), replacement `[HOST]`.  Both alternatives are nine
characters long. -/
def matchHostLit (cs : List Char) : Option (List Char × Nat) :=
  if ciPrefixAt "localhost".data cs then some ("[HOST]".data, 9)
  else if ciPrefixAt "127.0.0.1".data cs then some ("[HOST]".data, 9)
  else none

/-- The keyword alternation `(database|user|password|host|port)` of the
credential pattern, tried in the pattern's left-to-right order; returns the
length of the alternative that matches.  No keyword is a prefix of another,
so at most one can match at a given position. -/
def credKeyLen (cs : List Char) : Option Nat :=
  if ciPrefixAt "database".data cs then some 8
  else if ciPrefixAt "user".data cs then some 4
  else if ciPrefixAt "password".data cs then some 8
  else if ciPrefixAt "host".data cs then some 4
  else if ciPrefixAt "port".data cs then some 4
  else none

/-- Matcher for the credential pattern
`(database|user|password|host|port)\s*[=:][^,;\)\n]*` with `re.IGNORECASE`
(app.py line 326), replacement `\1=[REDACTED]` — group 1 keeps the original
casing of the matched keyword. -/
def matchCred (cs : List Char) : Option (List Char × Nat) := do
  let klen ← credKeyLen cs
  let rest := cs.drop klen
  let w := (rest.takeWhile isPySpace).length
  match (rest.drop w).head? with
  | some ch =>
    if ch = '=' ∨ ch = ':' then
      let v := ((rest.drop (w + 1)).takeWhile
        (fun c => !(c == ',' || c == ';' || c == ')' || c == '\n'))).length
      pure (cs.take klen ++ "=[REDACTED]".data, klen + w + 1 + v)
    else failure
  | none => failure

/-- Matcher for the Windows-path pattern `[C-Z]:\\[^\s]*` (app.py line 333),
replacement `[PATH]`. -/
def matchWinPath (cs : List Char) : Option (List Char × Nat) :=
  match cs with
  | c :: ':' :: '\\' :: rest =>
    if 'C' ≤ c ∧ c ≤ 'Z' then
      some ("[PATH]".data, 3 + (rest.takeWhile (fun ch => !isPySpace ch)).length)
    else none
  | _ => none

/-- Matcher for the Unix-path pattern `/[^\s]*\.[^\s]+` (app.py line 334),
replacement `[PATH]`.  After the slash the greedy groups force the match to
extend to the end of the non-whitespace run, and a match exists exactly when
that run contains a dot that is not its last character. -/
def matchUnixPath (cs : List Char) : Option (List Char × Nat) :=
  match cs with
  | '/' :: rest =>
    let run := rest.takeWhile (fun ch => !isPySpace ch)
    if run.dropLast.contains '.' then some ("[PATH]".data, 1 + run.length)
    else none
  | _ => none

/-- Boolean prefix test on character lists. -/
def chStartsWith : List Char → List Char → Bool
  | [], _ => true
  | _ :: _, [] => false
  | a :: as, b :: bs => (a == b) && chStartsWith as bs

/-- Boolean contiguous-substring test on character lists (Python's `in` for
strings). -/
def chContainsSeq (needle : List Char) : List Char → Bool
  | [] => chStartsWith needle []
  | c :: cs => chStartsWith needle (c :: cs) || chContainsSeq needle cs

/-- The test `'SQL' in sanitized.upper() or 'SELECT' in sanitized.upper() or
'INSERT' in sanitized.upper()` of app.py line 329. -/
def hasSQLref (cs : List Char) : Bool :=
  let u := cs.map Char.toUpper
  chContainsSeq "SQL".data u || chContainsSeq "SELECT".data u ||
    chContainsSeq "INSERT".data u

/-- Fallback message returned for empty or blank sanitizer input
(app.py lines 317 and 336). -/
def DEFAULT_ERR_MSG : String := "An unexpected error occurred. Please try again."

/-- Generic message substituted for anything that mentions SQL
(app.py line 330). -/
def DB_OP_FAILED_MSG : String :=
  "Database operation failed. Please check your data and try again."

/-- Model of `sanitize_error_message` (app.py lines 311-336): the five
substitutions and the SQL-mention check, applied in source order, with the
blank-result fallback. -/
def sanitize_error_message (errorStr : String) : String :=
  if errorStr = "" then DEFAULT_ERR_MSG
  else
    let s1 := subst matchIP errorStr.data
    let s2 := subst matchHostLit s1
    let s3 := subst matchCred s2
    let s4 := if hasSQLref s3 then DB_OP_FAILED_MSG.data else s3
    let s5 := subst matchWinPath s4
    let s6 := subst matchUnixPath s5
    if pyStrip s6 = [] then DEFAULT_ERR_MSG else ⟨s6⟩

/-! ## Type inference (`infer_mysql_type`, app.py lines 117-127) -/

/-- The pandas dtypes distinguished by `infer_mysql_type`'s chain of
`pd.api.types.is_*_dtype` tests. -/
inductive Dtype where
  | int64
  | float64
  | boolDt
  | datetime64
  | objectDt
  deriving DecidableEq, Repr

/-- Model of `infer_mysql_type` (app.py lines 117-127): integer, float,
boolean and datetime dtypes are tested in that order, with `TEXT` as the
fallback. -/
def infer_mysql_type (dtype : Dtype) : String :=
  if dtype = .int64 then "INT"
  else if dtype = .float64 then "DOUBLE"
  else if dtype = .boolDt then "BOOLEAN"
  else if dtype = .datetime64 then "DATETIME"
  else "TEXT"

/-- Whether a CSV field is parsed as an integer by the pandas CSV reader:
an optional sign followed by at least one digit. -/
def isIntLit (s : String) : Bool :=
  match s.data with
  | [] => false
  | c :: cs =>
    if c = '+' ∨ c = '-' then cs ≠ [] && cs.all Char.isDigit
    else (c :: cs).all Char.isDigit

/-- Whether a CSV field is parsed as a floating-point number by the pandas
CSV reader: an optional sign, digits with at most one decimal point and at
least one digit somewhere. -/
def isFloatLit (s : String) : Bool :=
  let body := match s.data with
    | c :: cs => if c = '+' ∨ c = '-' then cs else c :: cs
    | [] => []
  body.any Char.isDigit &&
    body.all (fun c => Char.isDigit c || c == '.') &&
    (body.filter (fun c => c == '.')).length ≤ 1

/-- Whether a CSV field is parsed as a boolean by the pandas CSV reader. -/
def isBoolLit (s : String) : Bool :=
  s = "True" || s = "False" || s = "TRUE" || s = "FALSE"

/-- Dtype that pandas `read_csv` assigns to a column of raw CSV fields
(`none` is a missing field).  This embeds the host-library semantics the app
relies on for `df[col].dtype`: a column whose non-missing fields are all
integer literals and which has no missing field is `int64`; numeric fields,
possibly with missing values (stored as NaN), give `float64`; boolean
literals without missing values give `bool`; everything else is `object`.
In particular a column that is entirely missing is stored as NaN and has
dtype `float64`.  Plain `read_csv` never produces a datetime dtype. -/
def csvColumnDtype (cells : List (Option String)) : Dtype :=
  let nonNull := cells.filterMap id
  if nonNull = [] then .float64
  else if cells.all (·.isSome) && nonNull.all isIntLit then .int64
  else if nonNull.all isFloatLit then .float64
  else if cells.all (·.isSome) && nonNull.all isBoolLit then .boolDt
  else .objectDt

/-- Storage type the app infers for a column of raw CSV fields: the
composition of the pandas dtype assignment with `infer_mysql_type`. -/
def colInfer (cells : List (Option String)) : String :=
  infer_mysql_type (csvColumnDtype cells)

/-! ## Dataframes and cell values

A dataframe is the in-memory tabular value the presentation layer hands to
the ingestion flow: an ordered list of column names, the pandas dtype of each
column, and the rows.  A cell is an integer, a float (modelled exactly as a
rational; the flow performs no float arithmetic), a boolean, a string, or the
null marker (NaN/NaT/None). -/

/-- A dataframe cell value. -/
inductive Value where
  | vInt (n : Int)
  | vFloat (q : Rat)
  | vBool (b : Bool)
  | vStr (s : String)
  | vNull
  deriving DecidableEq, Repr

/-- An uploaded dataset: ordered columns with their pandas dtypes, and rows
of cell values (each row aligned with `cols`). -/
structure Dataframe where
  cols : List String
  dtypes : List Dtype
  rows : List (List Value)
  deriving DecidableEq, Repr

/-- Value of the cell in column `t` of a row, by first occurrence of the
column name (pandas column labels are unique after CSV mangling); missing
columns read as null. -/
def rowCell : List String → List Value → String → Value
  | c :: cs, v :: vs, t => if c = t then v else rowCell cs vs t
  | _, _, _ => .vNull

/-- Value lookup in a stored row (an association list of column name and
value); columns the row does not provide read as SQL NULL. -/
def lookupVal : List (String × Value) → String → Value
  | [], _ => .vNull
  | (c, v) :: rest, t => if c = t then v else lookupVal rest t

/-- Python `int(...)` on a string as used by `astype(int)` on an object
column: surrounding whitespace and an optional sign are accepted around a
nonempty digit string (digit-group underscores are not modelled; no theorem
evaluates them). -/
def pyIntOfString (s : String) : Option Int :=
  match pyStrip s.data with
  | [] => none
  | c :: cs =>
    let digits := if c = '+' ∨ c = '-' then cs else c :: cs
    if digits ≠ [] ∧ digits.all Char.isDigit then
      let n : Int := digits.foldl (fun acc d => acc * 10 + (d.toNat - '0'.toNat)) 0
      some (if c = '-' then -n else n)
    else none

/-- `astype(int)` on one cell: integers unchanged, floats truncated toward
zero, booleans mapped to 0/1, strings parsed as Python `int`, and a null
(NaN) raises, which surfaces as `none`. -/
def valueToInt : Value → Option Int
  | .vInt n => some n
  | .vFloat q => some (Int.tdiv q.num q.den)
  | .vBool b => some (if b then 1 else 0)
  | .vStr s => pyIntOfString s
  | .vNull => none

/-- `df["applicant_id"] = df["applicant_id"].astype(int)` on one row: the
cell in the first `applicant_id` column is coerced to an integer; any
non-coercible cell fails the whole conversion. -/
def astypeIntRow : List String → List Value → Option (List Value)
  | c :: cs, v :: vs =>
    if c = "applicant_id" then (valueToInt v).map (fun n => Value.vInt n :: vs)
    else (astypeIntRow cs vs).map (v :: ·)
  | _, r => some r

/-- The whole-column `astype(int)`: every row must coerce, or the conversion
raises for the entire batch (no partial coercion). -/
def astypeIntRows (cols : List String) : List (List Value) → Option (List (List Value))
  | [] => some []
  | r :: rs => do
    let r' ← astypeIntRow cols r
    let rs' ← astypeIntRows cols rs
    pure (r' :: rs')

/-- Dtypes after the `astype(int)` assignment: the `applicant_id` column
becomes `int64`. -/
def astypeIntDtypes : List String → List Dtype → List Dtype
  | c :: cs, d :: ds =>
    if c = "applicant_id" then .int64 :: ds else d :: astypeIntDtypes cs ds
  | _, ds => ds

/-- `df.dropna(subset=["applicant_id"])` (app.py line 469): drop the rows
whose primary-key cell is null. -/
def dropnaPK (df : Dataframe) : Dataframe :=
  { df with
    rows := df.rows.filter (fun r => !decide (rowCell df.cols r "applicant_id" = .vNull)) }

/-- Line 477 and line 163: `df.where(pd.notnull(df), None)` maps every
missing value to a single null marker; `Value.vNull` already is that unique
marker, so the normalization is the identity on modelled dataframes. -/
def normalizeNulls (df : Dataframe) : Dataframe := df

/-- Dtype of the column named `t` (first occurrence), used for column
selection. -/
def colDtype : List String → List Dtype → String → Dtype
  | c :: cs, d :: ds, t => if c = t then d else colDtype cs ds t
  | _, _, _ => .objectDt

/-- `df[columns_to_keep]` (app.py line 303): keep the listed columns, in the
listed order, with their dtypes and cell values. -/
def Dataframe.project (df : Dataframe) (keep : List String) : Dataframe :=
  { cols := keep
    dtypes := keep.map (colDtype df.cols df.dtypes)
    rows := df.rows.map (fun r => keep.map (rowCell df.cols r)) }

/-! ## Persisted state: target tables and the upload registry -/

/-- A MySQL table as this subsystem sees it: its ordered
(column name, storage type) pairs, the primary-key column if any, and the
stored rows.  A stored row keeps the (column, value) pairs it was inserted
with; columns it does not mention hold SQL NULL. -/
structure Table where
  cols : List (String × String)
  pk : Option String
  rows : List (List (String × Value))
  deriving DecidableEq, Repr

/-- One row of the `_uploaded_tables` registry (app.py lines 192-199):
table name, uploader, server-assigned timestamp, and the recorded row count. -/
structure RegEntry where
  table_name : String
  uploaded_by : String
  uploaded_at : Nat
  row_count : Nat
  deriving DecidableEq, Repr

/-- The database state: named tables, the registry rows in insertion order,
and the server clock that assigns `uploaded_at` timestamps. -/
structure DB where
  tables : List (String × Table)
  registry : List RegEntry
  clock : Nat
  deriving DecidableEq, Repr

/-- Look a table up by name. -/
def lookupTable : List (String × Table) → String → Option Table
  | [], _ => none
  | (n, tb) :: rest, t => if n = t then some tb else lookupTable rest t

/-- Replace the table stored under a name (first occurrence). -/
def updateTable : List (String × Table) → String → Table → List (String × Table)
  | [], _, _ => []
  | (n, tb) :: rest, t, tb' =>
    if n = t then (t, tb') :: rest else (n, tb) :: updateTable rest t tb'

/-- `ensure_registry` (app.py lines 188-210) creates the `_uploaded_tables`
container with CREATE TABLE IF NOT EXISTS; the model keeps the registry as an
always-present list, so the call is the identity on the state. -/
def ensure_registry (db : DB) : DB := db

/-- The table `create_table_from_df` (app.py lines 130-155) would create for
a dataframe: each column gets its inferred storage type, and `applicant_id`,
when present, is declared PRIMARY KEY. -/
def tableOfDf (df : Dataframe) : Table :=
  { cols := df.cols.zip (df.dtypes.map infer_mysql_type)
    pk := if "applicant_id" ∈ df.cols then some "applicant_id" else none
    rows := [] }

/-- Model of `create_table_from_df` (app.py lines 130-155): CREATE TABLE IF
NOT EXISTS — a no-op when the table already exists, otherwise the table is
created empty. -/
def create_table_from_df (db : DB) (df : Dataframe) (tableName : String) : DB :=
  if (lookupTable db.tables tableName).isSome then db
  else { db with tables := db.tables ++ [(tableName, tableOfDf df)] }

/-- Whether inserting `newRow` would violate the table's primary-key
uniqueness constraint. -/
def rowCollides (tb : Table) (newRow : List (String × Value)) : Bool :=
  match tb.pk with
  | some p => tb.rows.any (fun s => decide (lookupVal s p = lookupVal newRow p))
  | none => false

/-- One row of the INSERT IGNORE: a row colliding with an existing primary
key is silently skipped, otherwise it is appended. -/
def insertRow (tb : Table) (newRow : List (String × Value)) : Table :=
  if rowCollides tb newRow then tb else { tb with rows := tb.rows ++ [newRow] }

/-- Sequential INSERT IGNORE of a batch (`cursor.executemany`): rows are
processed in order, so a row also collides with earlier rows of the same
batch once those are inserted. -/
def insertRowsF (tb : Table) (newRows : List (List (String × Value))) : Table :=
  newRows.foldl insertRow tb

/-- Model of `insert_dataframe` (app.py lines 158-184): null normalization
(identity here), then `INSERT IGNORE` of every row via `executemany`, then
commit.  The MySQL coercion of a NULL primary key to a default value under
IGNORE is not modelled; no theorem exercises a batch that omits the
primary-key column of its target table. -/
def insert_dataframe (db : DB) (df : Dataframe) (tableName : String) : DB :=
  match lookupTable db.tables tableName with
  | none => db
  | some tb =>
    let tb' := insertRowsF tb (df.rows.map (df.cols.zip ·))
    { db with tables := updateTable db.tables tableName tb' }

/-- Model of `register_table` (app.py lines 212-229): append one registry
row with a server-assigned timestamp. -/
def register_table (db : DB) (tableName uploader : String) (rowCount : Nat) : DB :=
  { db with
      registry := db.registry ++
        [{ table_name := tableName, uploaded_by := uploader,
           uploaded_at := db.clock, row_count := rowCount }]
      clock := db.clock + 1 }

/-- Model of `validate_and_append_data` (app.py lines 280-309): when the
target table exists and reports a nonempty column list, keep only the
incoming columns that already exist (in incoming order) and fail when none
matches; otherwise pass the dataframe through. -/
def validate_and_append_data (db : DB) (df : Dataframe) (tableName : String) :
    Option Dataframe × Option String :=
  match lookupTable db.tables tableName with
  | some tb =>
    let existing := tb.cols.map Prod.fst
    if existing ≠ [] then
      let keep := df.cols.filter (fun c => strMem c existing)
      if keep = [] then (none, some "No matching columns found in existing table.")
      else (some (df.project keep), none)
    else (some df, none)
  | none => (some df, none)

/-- Header of the registry display (app.py line 251). -/
def registryHeader : List String :=
  ["table_name", "uploaded_by", "uploaded_at", "row_count"]

/-- Newest-first order on registry entries (`ORDER BY uploaded_at DESC`). -/
def regGE (a b : RegEntry) : Prop := b.uploaded_at ≤ a.uploaded_at

instance : DecidableRel regGE := fun a b => Nat.decLe b.uploaded_at a.uploaded_at

instance : IsTotal RegEntry regGE :=
  ⟨fun a b => (Nat.le_total b.uploaded_at a.uploaded_at).imp id id⟩

instance : IsTrans RegEntry regGE :=
  ⟨fun _ _ _ hab hbc => Nat.le_trans hbc hab⟩

/-- Model of `get_registry_data` (app.py lines 246-262): a SELECT ordered by
`uploaded_at` descending that leaves the state untouched; a storage-layer
failure (`storageUp = false`) is caught and surfaces as `([], [])`. -/
def get_registry_data (storageUp : Bool) (db : DB) : List String × List RegEntry :=
  if storageUp then (registryHeader, db.registry.insertionSort regGE)
  else ([], [])

/-! ## The upload handler (`show_app`, app.py lines 457-508)

`uploadToMySQL` models the body of the Upload button: field validation,
primary-key checks, null drop and coercion, schema reconciliation, table
creation, INSERT IGNORE, and the registry append, with each `st.error`
branch mapped to an outcome constructor.  The two Booleans are oracles for
storage-layer availability: `insertOk` is whether the insert commits,
`registerOk` whether the registry append commits; a `false` raises
`mysql.connector.Error`, caught at lines 502-504. -/

/-- Outcome surfaced by the Upload handler, one constructor per terminal
branch of app.py lines 457-508. -/
inductive UploadOutcome where
  /-- line 461: blank uploader name -/
  | errMissingName
  /-- line 463: blank target table name -/
  | errMissingTable
  /-- line 465: the dataset lacks the `applicant_id` column -/
  | errMissingPKCol
  /-- lines 505-508: `astype(int)` raised on a non-coercible primary key -/
  | errPKNotCoercible
  /-- line 488: `validate_and_append_data` returned an error message -/
  | errValidation (msg : String)
  /-- lines 502-504: a storage-layer failure during insert or registry write -/
  | errDb
  /-- line 499: success, with the reported row count and the dropped-row count -/
  | ok (rowsReported : Nat) (dropped : Nat)
  deriving DecidableEq, Repr

/-- Whether an outcome is the success banner. -/
def UploadOutcome.isOk : UploadOutcome → Bool
  | .ok _ _ => true
  | _ => false

/-- Model of the Upload button handler (app.py lines 457-508). -/
def uploadToMySQL (insertOk registerOk : Bool) (db : DB) (df : Dataframe)
    (tableName uploader : String) : UploadOutcome × DB :=
  if uploader = "" ∨ pyStripS uploader = "" then (.errMissingName, db)
  else if tableName = "" ∨ pyStripS tableName = "" then (.errMissingTable, db)
  else if "applicant_id" ∉ df.cols then (.errMissingPKCol, db)
  else
    let before := df.rows.length
    let df1 := dropnaPK df
    match astypeIntRows df.cols df1.rows with
    | none => (.errPKNotCoercible, db)
    | some rows2 =>
      let df2 : Dataframe := ⟨df.cols, astypeIntDtypes df.cols df.dtypes, rows2⟩
      let dropped := before - df2.rows.length
      let df3 := normalizeNulls df2
      let db0 := ensure_registry db
      match validate_and_append_data db0 df3 tableName with
      | (_, some msg) => (.errValidation msg, db0)
      | (none, none) => (.errValidation "", db0)
      | (some df4, none) =>
        let db1 := create_table_from_df db0 df4 tableName
        if insertOk then
          let db2 := insert_dataframe db1 df4 tableName
          if registerOk then
            (.ok df4.rows.length dropped,
             register_table db2 tableName uploader df4.rows.length)
          else (.errDb, db2)
        else (.errDb, db1)

/-- Header normalization (app.py line 443):
`df.columns = df.columns.str.lower().str.strip()`. -/
def normalizeHeaders (cols : List String) : List String :=
  cols.map (fun c => pyStripS (pyLower c))

/-- The upload page from file parse to handler (app.py lines 441-508):
headers are lowercased and stripped before any validation or ingestion
step runs. -/
def processUpload (insertOk registerOk : Bool) (db : DB) (df : Dataframe)
    (tableName uploader : String) : UploadOutcome × DB :=
  uploadToMySQL insertOk registerOk db { df with cols := normalizeHeaders df.cols }
    tableName uploader

/-- Number of rows stored in a table. -/
def tableRows (db : DB) (t : String) : Option Nat :=
  (lookupTable db.tables t).map (fun tb => tb.rows.length)

/-! ## Concrete fixtures used by counterexamples and witnesses -/

/-- A database with no tables and an empty registry. -/
def dbEmpty : DB := ⟨[], [], 0⟩

/-- A one-row dataset keyed by `applicant_id`. -/
def dfOneRow : Dataframe := ⟨["applicant_id"], [.int64], [[.vInt 7]]⟩

/-- A two-row dataset with distinct integer keys. -/
def dfTwoRows : Dataframe :=
  ⟨["applicant_id", "age"], [.int64, .int64],
   [[.vInt 1, .vInt 30], [.vInt 2, .vInt 40]]⟩

/-- A three-row dataset whose key column holds exactly one null. -/
def dfWithNull : Dataframe :=
  ⟨["applicant_id", "age"], [.float64, .int64],
   [[.vInt 1, .vInt 30], [.vNull, .vInt 40], [.vInt 3, .vNull]]⟩

/-- A database owning a table `t` whose only column shares no name with any
fixture dataset column. -/
def dbDisjoint : DB := ⟨[("t", ⟨[("x", "INT")], none, []⟩)], [], 5⟩

/-- A database owning a table `t` with columns `applicant_id` and `age`. -/
def dbWithT : DB :=
  ⟨[("t", ⟨[("applicant_id", "INT"), ("age", "INT")], some "applicant_id", []⟩)], [], 0⟩

/-- A dataset carrying an extra column that table `t` of `dbWithT` lacks. -/
def dfExtra : Dataframe :=
  ⟨["applicant_id", "extra", "age"], [.int64, .objectDt, .int64],
   [[.vInt 1, .vStr "z", .vInt 9]]⟩

/-! ## Helper lemmas -/

theorem strMem_iff {c : String} {l : List String} : strMem c l = true ↔ c ∈ l := by
  induction l with
  | nil => simp [strMem]
  | cons x xs ih =>
    by_cases h : x = c
    · subst h; simp [strMem]
    · simp [strMem, h, ih, Ne.symm h]

theorem pyStrip_nil : pyStrip [] = [] := rfl

theorem pyStripS_empty : pyStripS "" = "" := rfl

theorem blank_or_iff (s : String) : (s = "" ∨ pyStripS s = "") ↔ pyStripS s = "" := by
  constructor
  · rintro (h | h)
    · rw [h]; exact pyStripS_empty
    · exact h
  · exact Or.inr

theorem lookupTable_append_self {l : List (String × Table)} {t : String} (tb : Table)
    (h : lookupTable l t = none) : lookupTable (l ++ [(t, tb)]) t = some tb := by
  induction l with
  | nil => simp [lookupTable]
  | cons x xs ih =>
    obtain ⟨n, tb'⟩ := x
    by_cases hn : n = t
    · simp [lookupTable, hn] at h
    · simp only [lookupTable, hn, if_false, List.cons_append] at h ⊢
      exact ih h

theorem updateTable_append_self {l : List (String × Table)} {t : String} (tb tb' : Table)
    (h : lookupTable l t = none) : updateTable (l ++ [(t, tb)]) t tb' = l ++ [(t, tb')] := by
  induction l with
  | nil => simp [updateTable]
  | cons x xs ih =>
    obtain ⟨n, tbx⟩ := x
    by_cases hn : n = t
    · simp [lookupTable, hn] at h
    · simp only [lookupTable, hn, if_false] at h
      simp only [List.cons_append, updateTable, hn, if_false, List.cons.injEq, true_and]
      exact ih h

theorem updateTable_self {l : List (String × Table)} {t : String} {tb : Table}
    (h : lookupTable l t = some tb) : updateTable l t tb = l := by
  induction l with
  | nil => simp [lookupTable] at h
  | cons x xs ih =>
    obtain ⟨n, tbx⟩ := x
    by_cases hn : n = t
    · subst hn
      simp only [lookupTable, if_true] at h
      have : tbx = tb := Option.some.inj h
      simp [updateTable, this]
    · simp only [lookupTable, hn, if_false] at h
      simp [updateTable, hn, ih h]

theorem lookupTable_updateTable {l : List (String × Table)} {t : String} (tb' : Table)
    (h : (lookupTable l t).isSome) :
    lookupTable (updateTable l t tb') t = some tb' := by
  induction l with
  | nil => simp [lookupTable] at h
  | cons x xs ih =>
    obtain ⟨n, tbx⟩ := x
    by_cases hn : n = t
    · simp [updateTable, lookupTable, hn]
    · simp only [lookupTable, hn, if_false] at h
      simp [updateTable, lookupTable, hn, ih h]

theorem insertRow_cols (tb : Table) (r : List (String × Value)) :
    (insertRow tb r).cols = tb.cols := by
  unfold insertRow; split <;> rfl

theorem insertRow_pk (tb : Table) (r : List (String × Value)) :
    (insertRow tb r).pk = tb.pk := by
  unfold insertRow; split <;> rfl

theorem insertRowsF_cols (tb : Table) (rs : List (List (String × Value))) :
    (insertRowsF tb rs).cols = tb.cols := by
  induction rs generalizing tb with
  | nil => rfl
  | cons r rs ih =>
    simp only [insertRowsF, List.foldl_cons]
    rw [show (List.foldl insertRow (insertRow tb r) rs) = insertRowsF (insertRow tb r) rs from rfl,
      ih, insertRow_cols]

theorem insertRowsF_pk (tb : Table) (rs : List (List (String × Value))) :
    (insertRowsF tb rs).pk = tb.pk := by
  induction rs generalizing tb with
  | nil => rfl
  | cons r rs ih =>
    simp only [insertRowsF, List.foldl_cons]
    rw [show (List.foldl insertRow (insertRow tb r) rs) = insertRowsF (insertRow tb r) rs from rfl,
      ih, insertRow_pk]

theorem insertRowsF_all_new {p : String} {tb : Table} {rs : List (List (String × Value))}
    (hpk : tb.pk = some p)
    (hnew : ∀ nr ∈ rs, ∀ s ∈ tb.rows, ¬ lookupVal s p = lookupVal nr p)
    (hdst : rs.Pairwise (fun a b => lookupVal a p ≠ lookupVal b p)) :
    (insertRowsF tb rs).rows = tb.rows ++ rs := by
  induction rs generalizing tb with
  | nil => simp [insertRowsF]
  | cons r rs ih =>
    have hcol : rowCollides tb r = false := by
      unfold rowCollides
      rw [hpk]
      simp only [List.any_eq_false, decide_eq_true_eq]
      intro s hs
      exact hnew r (by simp) s hs
    have hins : insertRow tb r = { tb with rows := tb.rows ++ [r] } := by
      unfold insertRow; rw [hcol]; simp
    simp only [insertRowsF, List.foldl_cons, hins]
    rw [show List.foldl insertRow ({ tb with rows := tb.rows ++ [r] }) rs =
        insertRowsF ({ tb with rows := tb.rows ++ [r] }) rs from rfl]
    have hpk' : ({ tb with rows := tb.rows ++ [r] } : Table).pk = some p := hpk
    have hnew' : ∀ nr ∈ rs, ∀ s ∈ ({ tb with rows := tb.rows ++ [r] } : Table).rows,
        ¬ lookupVal s p = lookupVal nr p := by
      intro nr hnr s hs
      simp only [List.mem_append, List.mem_singleton] at hs
      rcases hs with hs | hs
      · exact hnew nr (by simp [hnr]) s hs
      · subst hs
        exact (List.pairwise_cons.mp hdst).1 nr hnr
    rw [ih hpk' hnew' (List.pairwise_cons.mp hdst).2]
    simp

theorem insertRowsF_all_dup {p : String} {tb : Table} {rs : List (List (String × Value))}
    (hpk : tb.pk = some p)
    (hdup : ∀ nr ∈ rs, ∃ s ∈ tb.rows, lookupVal s p = lookupVal nr p) :
    insertRowsF tb rs = tb := by
  induction rs with
  | nil => rfl
  | cons r rs ih =>
    have hcol : rowCollides tb r = true := by
      unfold rowCollides
      rw [hpk]
      simp only [List.any_eq_true, decide_eq_true_eq]
      obtain ⟨s, hs, he⟩ := hdup r (by simp)
      exact ⟨s, hs, he⟩
    have hins : insertRow tb r = tb := by
      unfold insertRow; rw [hcol]; simp
    simp only [insertRowsF, List.foldl_cons, hins]
    exact ih (fun nr hnr => hdup nr (by simp [hnr]))

theorem lookupVal_zip (cols : List String) (r : List Value) (t : String) :
    lookupVal (cols.zip r) t = rowCell cols r t := by
  induction cols generalizing r with
  | nil => cases r <;> rfl
  | cons c cs ih =>
    cases r with
    | nil => rfl
    | cons v vs =>
      simp only [List.zip_cons_cons, lookupVal, rowCell]
      split <;> [rfl; exact ih vs]

theorem map_rowCell_self {cols : List String} {r : List Value}
    (hnd : cols.Nodup) (hlen : r.length = cols.length) :
    cols.map (rowCell cols r) = r := by
  induction cols generalizing r with
  | nil => cases r with | nil => rfl | cons v vs => simp at hlen
  | cons c cs ih =>
    cases r with
    | nil => simp at hlen
    | cons v vs =>
      simp only [List.length_cons, Nat.succ.injEq] at hlen
      have hne : c ∉ cs := (List.nodup_cons.mp hnd).1
      have hhead : rowCell (c :: cs) (v :: vs) c = v := by simp [rowCell]
      have htail : ∀ x ∈ cs, rowCell (c :: cs) (v :: vs) x = rowCell cs vs x := by
        intro x hx
        have hcx : ¬ c = x := fun h => hne (h ▸ hx)
        simp [rowCell, hcx]
      rw [List.map_cons, hhead, List.map_congr_left htail,
        ih (List.nodup_cons.mp hnd).2 hlen]

theorem map_colDtype_self {cols : List String} {ds : List Dtype}
    (hnd : cols.Nodup) (hlen : ds.length = cols.length) :
    cols.map (colDtype cols ds) = ds := by
  induction cols generalizing ds with
  | nil => cases ds with | nil => rfl | cons d ds => simp at hlen
  | cons c cs ih =>
    cases ds with
    | nil => simp at hlen
    | cons d ds =>
      simp only [List.length_cons, Nat.succ.injEq] at hlen
      have hne : c ∉ cs := (List.nodup_cons.mp hnd).1
      have hhead : colDtype (c :: cs) (d :: ds) c = d := by simp [colDtype]
      have htail : ∀ x ∈ cs, colDtype (c :: cs) (d :: ds) x = colDtype cs ds x := by
        intro x hx
        have hcx : ¬ c = x := fun h => hne (h ▸ hx)
        simp [colDtype, hcx]
      rw [List.map_cons, hhead, List.map_congr_left htail,
        ih (List.nodup_cons.mp hnd).2 hlen]

theorem project_self {df : Dataframe} (hnd : df.cols.Nodup)
    (hd : df.dtypes.length = df.cols.length)
    (hr : ∀ r ∈ df.rows, r.length = df.cols.length) :
    df.project df.cols = df := by
  obtain ⟨cols, dtypes, rows⟩ := df
  simp only [Dataframe.project, Dataframe.mk.injEq, true_and]
  refine ⟨map_colDtype_self hnd hd, ?_⟩
  calc rows.map (fun r => cols.map (rowCell cols r))
      = rows.map id := List.map_congr_left (fun r hrr => map_rowCell_self hnd (hr r hrr))
    _ = rows := List.map_id rows

theorem filter_strMem_self {l ex : List String} (h : ∀ c ∈ l, c ∈ ex) :
    l.filter (fun c => strMem c ex) = l := by
  rw [List.filter_eq_self]
  exact fun c hc => strMem_iff.mpr (h c hc)

theorem astypeIntRow_id {cols : List String} {r : List Value}
    (h : ∃ n, rowCell cols r "applicant_id" = .vInt n) :
    astypeIntRow cols r = some r := by
  induction cols generalizing r with
  | nil => cases r <;> rfl
  | cons c cs ih =>
    cases r with
    | nil => rfl
    | cons v vs =>
      simp only [rowCell] at h
      by_cases hc : c = "applicant_id"
      · obtain ⟨n, hn⟩ := h
        rw [if_pos hc] at hn
        subst hn
        simp [astypeIntRow, hc, valueToInt]
      · rw [if_neg hc] at h
        simp [astypeIntRow, hc, ih h]

theorem astypeIntRows_id {cols : List String} {rs : List (List Value)}
    (h : ∀ r ∈ rs, ∃ n, rowCell cols r "applicant_id" = .vInt n) :
    astypeIntRows cols rs = some rs := by
  induction rs with
  | nil => rfl
  | cons r rs ih =>
    simp [astypeIntRows, astypeIntRow_id (h r (by simp)),
      ih (fun r' hr' => h r' (by simp [hr']))]

theorem astypeIntDtypes_length (cols : List String) (ds : List Dtype) :
    (astypeIntDtypes cols ds).length = ds.length := by
  induction cols generalizing ds with
  | nil => rfl
  | cons c cs ih =>
    cases ds with
    | nil => rfl
    | cons d ds =>
      simp only [astypeIntDtypes]
      split <;> simp [ih]

theorem dropnaPK_id {df : Dataframe}
    (h : ∀ r ∈ df.rows, rowCell df.cols r "applicant_id" ≠ .vNull) :
    dropnaPK df = df := by
  obtain ⟨cols, dtypes, rows⟩ := df
  simp only [dropnaPK, Dataframe.mk.injEq, true_and]
  rw [List.filter_eq_self]
  intro r hr
  simpa using h r hr

theorem length_filter_add_compl {α : Type} (p : α → Bool) (l : List α) :
    (l.filter p).length + (l.filter (fun a => !p a)).length = l.length := by
  induction l with
  | nil => rfl
  | cons a l ih =>
    by_cases h : p a <;> simp [List.filter_cons, h] <;> omega

theorem create_table_registry (db : DB) (df : Dataframe) (t : String) :
    (create_table_from_df db df t).registry = db.registry := by
  unfold create_table_from_df; split <;> rfl

theorem create_table_clock (db : DB) (df : Dataframe) (t : String) :
    (create_table_from_df db df t).clock = db.clock := by
  unfold create_table_from_df; split <;> rfl

theorem insert_df_registry (db : DB) (df : Dataframe) (t : String) :
    (insert_dataframe db df t).registry = db.registry := by
  unfold insert_dataframe
  rcases lookupTable db.tables t <;> rfl

theorem insert_df_clock (db : DB) (df : Dataframe) (t : String) :
    (insert_dataframe db df t).clock = db.clock := by
  unfold insert_dataframe
  rcases lookupTable db.tables t <;> rfl

theorem create_table_of_exists {db : DB} {t : String} (df : Dataframe)
    (h : (lookupTable db.tables t).isSome) : create_table_from_df db df t = db := by
  unfold create_table_from_df
  rw [if_pos h]

theorem create_table_of_fresh {db : DB} {t : String} {df : Dataframe}
    (h : lookupTable db.tables t = none) :
    create_table_from_df db df t =
      { db with tables := db.tables ++ [(t, tableOfDf df)] } := by
  unfold create_table_from_df
  rw [h]
  rfl

theorem insert_df_eq_some {db : DB} {t : String} {tb : Table} (df : Dataframe)
    (h : lookupTable db.tables t = some tb) :
    insert_dataframe db df t =
      { db with
          tables := updateTable db.tables t (insertRowsF tb (df.rows.map (df.cols.zip ·))) } := by
  unfold insert_dataframe
  rw [h]

theorem validate_fresh {db : DB} {t : String} (df : Dataframe)
    (h : lookupTable db.tables t = none) :
    validate_and_append_data db df t = (some df, none) := by
  unfold validate_and_append_data
  rw [h]

theorem validate_existing_all {db : DB} {t : String} {tb : Table} (df : Dataframe)
    (h : lookupTable db.tables t = some tb)
    (hsub : ∀ c ∈ df.cols, c ∈ tb.cols.map Prod.fst) (hcne : df.cols ≠ []) :
    validate_and_append_data db df t = (some (df.project df.cols), none) := by
  have hne : tb.cols.map Prod.fst ≠ [] := by
    obtain ⟨c, hc⟩ := List.exists_mem_of_ne_nil df.cols hcne
    intro hcontra
    exact (List.not_mem_nil c) (hcontra ▸ hsub c hc)
  unfold validate_and_append_data
  rw [h]
  dsimp only
  rw [if_pos hne, filter_strMem_self hsub, if_neg hcne]

theorem validate_existing_empty {db : DB} {t : String} {tb : Table} (df : Dataframe)
    (h : lookupTable db.tables t = some tb) (hne : tb.cols.map Prod.fst ≠ [])
    (hempty : df.cols.filter (fun c => strMem c (tb.cols.map Prod.fst)) = []) :
    validate_and_append_data db df t =
      (none, some "No matching columns found in existing table.") := by
  unfold validate_and_append_data
  rw [h]
  dsimp only
  rw [if_pos hne, hempty, if_pos rfl]

/-- Full evaluation of a successful upload into a not-yet-existing table:
field checks pass, the null-keyed rows are dropped, the primary-key column
coerces, reconciliation passes the dataframe through, the table is created
and filled, and one registry entry is appended with the submitted row
count. -/
theorem upload_fresh_eq {db : DB} {df : Dataframe} {t u : String}
    (hu : pyStripS u ≠ "") (ht : pyStripS t ≠ "")
    (hpk : "applicant_id" ∈ df.cols)
    (hcoer : ∀ r ∈ (dropnaPK df).rows, ∃ n, rowCell df.cols r "applicant_id" = .vInt n)
    (hfresh : lookupTable db.tables t = none) :
    uploadToMySQL true true db df t u =
      (.ok (dropnaPK df).rows.length (df.rows.length - (dropnaPK df).rows.length),
       { tables := db.tables ++
           [(t, insertRowsF
              (tableOfDf ⟨df.cols, astypeIntDtypes df.cols df.dtypes, (dropnaPK df).rows⟩)
              ((dropnaPK df).rows.map (df.cols.zip ·)))],
         registry := db.registry ++ [⟨t, u, db.clock, (dropnaPK df).rows.length⟩],
         clock := db.clock + 1 }) := by
  have hu' : ¬(u = "" ∨ pyStripS u = "") := fun h => hu ((blank_or_iff u).mp h)
  have ht' : ¬(t = "" ∨ pyStripS t = "") := fun h => ht ((blank_or_iff t).mp h)
  have hpk' : ¬ "applicant_id" ∉ df.cols := not_not.mpr hpk
  have hast : astypeIntRows df.cols (dropnaPK df).rows = some (dropnaPK df).rows :=
    astypeIntRows_id hcoer
  unfold uploadToMySQL
  rw [if_neg hu', if_neg ht', if_neg hpk']
  dsimp only
  rw [hast]
  dsimp only [normalizeNulls, ensure_registry]
  rw [validate_fresh _ hfresh]
  dsimp only
  rw [create_table_of_fresh hfresh]
  rw [insert_df_eq_some _ (lookupTable_append_self _ hfresh)]
  dsimp only
  rw [updateTable_append_self _ _ hfresh]
  unfold register_table
  dsimp only
  rfl

/-- Full evaluation of re-uploading a dataset (no null keys, integer keys)
into an existing table that already holds rows for every incoming key and
whose columns are exactly the incoming columns: every row of the INSERT
IGNORE is skipped, the table is unchanged, yet the handler reports the
submitted row count and appends a registry entry recording it. -/
theorem upload_existing_identical {db : DB} {df : Dataframe} {t u : String} {tb : Table}
    (hu : pyStripS u ≠ "") (ht : pyStripS t ≠ "")
    (hnd : df.cols.Nodup)
    (hdlen : df.dtypes.length = df.cols.length)
    (hrlen : ∀ r ∈ df.rows, r.length = df.cols.length)
    (hpk : "applicant_id" ∈ df.cols)
    (hint : ∀ r ∈ df.rows, ∃ n, rowCell df.cols r "applicant_id" = .vInt n)
    (hexist : lookupTable db.tables t = some tb)
    (htbcols : tb.cols.map Prod.fst = df.cols)
    (htbpk : tb.pk = some "applicant_id")
    (hdup : ∀ r ∈ df.rows,
      ∃ s ∈ tb.rows, lookupVal s "applicant_id" = rowCell df.cols r "applicant_id") :
    uploadToMySQL true true db df t u =
      (.ok df.rows.length 0,
       { db with
           registry := db.registry ++ [⟨t, u, db.clock, df.rows.length⟩],
           clock := db.clock + 1 }) := by
  have hu' : ¬(u = "" ∨ pyStripS u = "") := fun h => hu ((blank_or_iff u).mp h)
  have ht' : ¬(t = "" ∨ pyStripS t = "") := fun h => ht ((blank_or_iff t).mp h)
  have hpk' : ¬ "applicant_id" ∉ df.cols := not_not.mpr hpk
  have hnonull : ∀ r ∈ df.rows, rowCell df.cols r "applicant_id" ≠ .vNull := by
    intro r hr
    obtain ⟨n, hn⟩ := hint r hr
    simp [hn]
  have hdrop : dropnaPK df = df := dropnaPK_id hnonull
  have hast : astypeIntRows df.cols df.rows = some df.rows := astypeIntRows_id hint
  set df2 : Dataframe := ⟨df.cols, astypeIntDtypes df.cols df.dtypes, df.rows⟩ with hdf2
  have hval : validate_and_append_data db df2 t = (some (df2.project df2.cols), none) := by
    refine validate_existing_all df2 hexist ?_ ?_
    · intro c hc
      rw [htbcols]
      exact hc
    · exact fun hcontra => (List.not_mem_nil "applicant_id") (hcontra ▸ hpk)
  have hproj : df2.project df2.cols = df2 := by
    refine project_self hnd ?_ hrlen
    rw [hdf2]
    exact (astypeIntDtypes_length df.cols df.dtypes).trans hdlen
  have hskip : insertRowsF tb (df2.rows.map (df.cols.zip ·)) = tb := by
    refine insertRowsF_all_dup htbpk ?_
    intro nr hnr
    simp only [List.mem_map] at hnr
    obtain ⟨r, hr, hzr⟩ := hnr
    obtain ⟨s, hs, hv⟩ := hdup r hr
    exact ⟨s, hs, by rw [← hzr, lookupVal_zip]; exact hv⟩
  unfold uploadToMySQL
  rw [if_neg hu', if_neg ht', if_neg hpk']
  dsimp only
  rw [hdrop, hast]
  dsimp only [normalizeNulls, ensure_registry]
  rw [hval]
  dsimp only
  rw [hproj]
  rw [create_table_of_exists _ (by rw [hexist]; rfl)]
  unfold insert_dataframe
  dsimp only
  rw [hexist]
  dsimp only
  rw [hskip, updateTable_self hexist]
  unfold register_table
  dsimp only
  rw [Nat.sub_self]
  obtain ⟨tables, registry, clock⟩ := db
  rfl

/-- A string built from a nonempty character list is not the empty string. -/
theorem stringMk_ne_empty {cs : List Char} (h : cs ≠ []) : (⟨cs⟩ : String) ≠ "" := by
  intro hc
  exact h (congrArg String.data hc)

/-- The blank-result fallback of the sanitizer never yields the empty
string. -/
theorem ite_strip_ne_empty (cs : List Char) :
    (if pyStrip cs = [] then DEFAULT_ERR_MSG else (⟨cs⟩ : String)) ≠ "" := by
  split
  · decide
  · next h =>
    exact stringMk_ne_empty fun hnil => h (by rw [hnil]; rfl)

/-- The sanitizer never returns the empty string: blank results fall back to
the default message. -/
theorem sanitize_never_empty (s : String) : sanitize_error_message s ≠ "" := by
  unfold sanitize_error_message
  split
  · decide
  · dsimp only
    exact ite_strip_ne_empty _

/-! ## Claim theorems -/

/-- C2, counterexample: the claim asserts that a column consisting entirely
of null values infers TEXT; in the program an all-null CSV column is stored
by pandas as NaN with dtype float64, so `infer_mysql_type` returns DOUBLE,
not TEXT. -/
theorem c2_counterexample :
    colInfer [none, none] = "DOUBLE" ∧ colInfer [none, none] ≠ "TEXT" := by
  exact ⟨by decide, by decide⟩

/-- C2, amended: type inference is total and always returns exactly one of
the five tags, testing the integer, float, boolean and timestamp dtypes in
that fixed order with TEXT as the fallback — but a column consisting
entirely of null values infers FLOAT (pandas stores it as float64 NaN),
not TEXT. -/
theorem c2_amended :
    (∀ cells : List (Option String),
      colInfer cells = "INT" ∨ colInfer cells = "DOUBLE" ∨ colInfer cells = "BOOLEAN" ∨
        colInfer cells = "DATETIME" ∨ colInfer cells = "TEXT") ∧
    infer_mysql_type .int64 = "INT" ∧
    infer_mysql_type .float64 = "DOUBLE" ∧
    infer_mysql_type .boolDt = "BOOLEAN" ∧
    infer_mysql_type .datetime64 = "DATETIME" ∧
    infer_mysql_type .objectDt = "TEXT" ∧
    colInfer [some "1", some "2", some "3"] = "INT" ∧
    colInfer [some "1.5", some "2"] = "DOUBLE" ∧
    colInfer [some "True", some "False"] = "BOOLEAN" ∧
    colInfer [some "1", some "x"] = "TEXT" ∧
    colInfer [none, none] = "DOUBLE" := by
  refine ⟨?_, by decide, by decide, by decide, by decide, by decide,
    by decide, by decide, by decide, by decide, by decide⟩
  intro cells
  unfold colInfer
  cases csvColumnDtype cells <;> simp [infer_mysql_type]

/-- C7, counterexample: the claim asserts the sanitizer's output never
contains a file-system path, but the Unix-path pattern requires a dot, so
the path "/etc/passwd" passes through verbatim. -/
theorem c7_counterexample :
    sanitize_error_message "/etc/passwd" = "/etc/passwd" ∧
    chContainsSeq "/etc/passwd".data (sanitize_error_message "/etc/passwd").data = true := by
  exact ⟨by decide, by decide⟩

/-- C7, amended: the sanitizer's output is never empty, and it masks
dotted-quad IP addresses, credential key/value assignments for the keywords
database/user/password/host/port, any message mentioning SQL (replaced
wholesale by a generic message), Windows paths, and dot-containing Unix
paths — but text outside these patterns, such as a dotless Unix path or a
bare hostname, may appear in the output verbatim. -/
theorem c7_amended :
    (∀ s : String, sanitize_error_message s ≠ "") ∧
    sanitize_error_message "connect to 192.168.0.7 failed" = "connect to [HOST] failed" ∧
    sanitize_error_message "password=hunter2, retry" = "password=[REDACTED], retry" ∧
    sanitize_error_message "SELECT * FROM t" = DB_OP_FAILED_MSG ∧
    sanitize_error_message "C:\\Users\\admin\\secret.txt error" = "[PATH] error" ∧
    sanitize_error_message "see /tmp/x.log now" = "see [PATH] now" ∧
    sanitize_error_message "" = DEFAULT_ERR_MSG := by
  exact ⟨sanitize_never_empty, by decide, by decide, by decide, by decide, by decide, rfl⟩

/-- C9: reading the registry is a pure function of the state (it returns
data and leaves the state untouched by construction); with storage up it
returns the fixed header and the entries as a permutation of the registry
sorted newest-first (descending `uploaded_at`); on storage unavailability it
returns the empty result instead of raising. -/
theorem c9_registry_read :
    ∀ db : DB,
      get_registry_data false db = ([], []) ∧
      (get_registry_data true db).1 = registryHeader ∧
      (get_registry_data true db).2.Perm db.registry ∧
      List.Sorted regGE (get_registry_data true db).2 := by
  intro db
  refine ⟨rfl, rfl, ?_, ?_⟩
  · simpa [get_registry_data] using List.perm_insertionSort regGE db.registry
  · simpa [get_registry_data] using List.sorted_insertionSort regGE db.registry

/-- C10: every column name is lowercased and stripped before any validation
or ingestion step runs, so the `applicant_id` requirement is met exactly
when some raw header lowercases and strips to `applicant_id`; in particular
the header "Applicant_ID " (trailing blank, mixed case) satisfies it and a
full upload with that header succeeds. -/
theorem c10_header_normalization :
    (∀ cols : List String,
      "applicant_id" ∈ normalizeHeaders cols ↔
        ∃ c ∈ cols, pyStripS (pyLower c) = "applicant_id") ∧
    normalizeHeaders ["Applicant_ID ", "Age", " INCOME"] = ["applicant_id", "age", "income"] ∧
    (processUpload true true ⟨[], [], 0⟩ ⟨["Applicant_ID "], [.int64], [[.vInt 7]]⟩
        "t" "u").1 = .ok 1 0 := by
  refine ⟨?_, by decide, by decide⟩
  intro cols
  simp [normalizeHeaders, List.mem_map]

/-- C3: when the target table exists and none of the incoming columns
matches its columns, the upload fails with the "No matching columns found in
existing table." error and the persisted state is returned unchanged: no
table is created, no row is inserted, and no registry entry is appended. -/
theorem c3_empty_intersection {db : DB} {df : Dataframe} {t u : String} {tb : Table}
    (insertOk registerOk : Bool)
    (hu : pyStripS u ≠ "") (ht : pyStripS t ≠ "")
    (hpk : "applicant_id" ∈ df.cols)
    (hcoer : ∀ r ∈ (dropnaPK df).rows, ∃ n, rowCell df.cols r "applicant_id" = .vInt n)
    (hexist : lookupTable db.tables t = some tb)
    (hne : tb.cols.map Prod.fst ≠ [])
    (hempty : df.cols.filter (fun c => strMem c (tb.cols.map Prod.fst)) = []) :
    uploadToMySQL insertOk registerOk db df t u =
      (.errValidation "No matching columns found in existing table.", db) := by
  have hu' : ¬(u = "" ∨ pyStripS u = "") := fun h => hu ((blank_or_iff u).mp h)
  have ht' : ¬(t = "" ∨ pyStripS t = "") := fun h => ht ((blank_or_iff t).mp h)
  have hpk' : ¬ "applicant_id" ∉ df.cols := not_not.mpr hpk
  have hast : astypeIntRows df.cols (dropnaPK df).rows = some (dropnaPK df).rows :=
    astypeIntRows_id hcoer
  unfold uploadToMySQL
  rw [if_neg hu', if_neg ht', if_neg hpk']
  dsimp only
  rw [hast]
  dsimp only [normalizeNulls, ensure_registry]
  rw [validate_existing_empty
    ⟨df.cols, astypeIntDtypes df.cols df.dtypes, (dropnaPK df).rows⟩ hexist hne hempty]

/-- C4: with the uploader and table-name fields filled in, an upload whose
dataset lacks the `applicant_id` column fails with the missing-column error,
and an upload whose primary-key column does not wholly coerce to integers
fails with the coercion error; in both cases the returned state is exactly
the input state — nothing is created, inserted, or registered. -/
theorem c4_pk_validation {db : DB} {df : Dataframe} {t u : String}
    (insertOk registerOk : Bool)
    (hu : pyStripS u ≠ "") (ht : pyStripS t ≠ "") :
    ("applicant_id" ∉ df.cols →
      uploadToMySQL insertOk registerOk db df t u = (.errMissingPKCol, db)) ∧
    ("applicant_id" ∈ df.cols →
      astypeIntRows df.cols (dropnaPK df).rows = none →
      uploadToMySQL insertOk registerOk db df t u = (.errPKNotCoercible, db)) := by
  have hu' : ¬(u = "" ∨ pyStripS u = "") := fun h => hu ((blank_or_iff u).mp h)
  have ht' : ¬(t = "" ∨ pyStripS t = "") := fun h => ht ((blank_or_iff t).mp h)
  constructor
  · intro hmiss
    unfold uploadToMySQL
    rw [if_neg hu', if_neg ht', if_pos hmiss]
  · intro hpk hnone
    unfold uploadToMySQL
    rw [if_neg hu', if_neg ht', if_neg (not_not.mpr hpk)]
    dsimp only
    rw [hnone]

/-- C5: for a dataset whose primary-key column holds exactly k null values
(and integers elsewhere), ingest into a fresh table drops exactly those k
rows before insertion and succeeds, reporting the submitted count
rows-minus-k together with dropped = k — the null drop alone is never an
error. -/
theorem c5_null_drop {db : DB} {df : Dataframe} {t u : String}
    (hu : pyStripS u ≠ "") (ht : pyStripS t ≠ "")
    (hpk : "applicant_id" ∈ df.cols)
    (hvals : ∀ r ∈ df.rows, rowCell df.cols r "applicant_id" = .vNull ∨
      ∃ n, rowCell df.cols r "applicant_id" = .vInt n)
    (hfresh : lookupTable db.tables t = none) :
    (uploadToMySQL true true db df t u).1 =
      .ok (df.rows.length -
            (df.rows.filter
              (fun r => decide (rowCell df.cols r "applicant_id" = .vNull))).length)
          (df.rows.filter
            (fun r => decide (rowCell df.cols r "applicant_id" = .vNull))).length := by
  have hcoer : ∀ r ∈ (dropnaPK df).rows, ∃ n, rowCell df.cols r "applicant_id" = .vInt n := by
    intro r hr
    unfold dropnaPK at hr
    simp only [List.mem_filter, Bool.not_eq_eq_eq_not, Bool.not_true,
      decide_eq_false_iff_not] at hr
    rcases hvals r hr.1 with h | h
    · exact absurd h hr.2
    · exact h
  have h1 := upload_fresh_eq hu ht hpk hcoer hfresh
  rw [h1]
  have hsum := length_filter_add_compl
    (fun r => decide (rowCell df.cols r "applicant_id" = .vNull)) df.rows
  have hdroplen : (dropnaPK df).rows.length =
      (df.rows.filter (fun r => !decide (rowCell df.cols r "applicant_id" = .vNull))).length :=
    rfl
  dsimp only
  rw [hdroplen]
  congr 1 <;> omega

/-- C6: across every input and storage-availability combination, the handler
appends exactly one registry entry — recording the reported row count and a
server-assigned timestamp — when and only when it reports success, and
leaves the registry untouched on every failure (the append happens after the
insert in the success path by construction of the handler). -/
theorem c6_registry_once :
    ∀ (insertOk registerOk : Bool) (db : DB) (df : Dataframe) (t u : String),
      (uploadToMySQL insertOk registerOk db df t u).2.registry =
        (match (uploadToMySQL insertOk registerOk db df t u).1 with
          | .ok n _ => db.registry ++ [⟨t, u, db.clock, n⟩]
          | _ => db.registry) := by
  intro iok rok db df t u
  unfold uploadToMySQL
  by_cases h1 : (u = "" ∨ pyStripS u = "")
  · rw [if_pos h1]
  rw [if_neg h1]
  by_cases h2 : (t = "" ∨ pyStripS t = "")
  · rw [if_pos h2]
  rw [if_neg h2]
  by_cases h3 : "applicant_id" ∉ df.cols
  · rw [if_pos h3]
  rw [if_neg h3]
  dsimp only
  rcases hast : astypeIntRows df.cols (dropnaPK df).rows with _ | rows2
  · rfl
  dsimp only [ensure_registry]
  rcases hval : validate_and_append_data db
      (normalizeNulls ⟨df.cols, astypeIntDtypes df.cols df.dtypes, rows2⟩) t with ⟨odf, oerr⟩
  rcases oerr with _ | msg
  · rcases odf with _ | df4
    · rfl
    · rcases iok with _ | _
      · simp [create_table_registry]
      rcases rok with _ | _
      · simp [insert_df_registry, create_table_registry]
      simp [register_table, insert_df_registry, create_table_registry,
        insert_df_clock, create_table_clock]
  · rcases odf with _ | df4 <;> rfl

/-- C8: against an existing table, the usable column set is the intersection
of the incoming columns with the table's columns, kept in incoming order (a
sublist of the incoming columns containing exactly the shared names), extra
incoming columns are dropped, and no upload outcome ever changes the
existing table's column set — the schema is never widened. -/
theorem c8_intersection_no_widening {db : DB} {df : Dataframe} {t : String} {tb : Table}
    (hexist : lookupTable db.tables t = some tb)
    (hne : tb.cols.map Prod.fst ≠ []) :
    (df.cols.filter (fun c => strMem c (tb.cols.map Prod.fst))).Sublist df.cols ∧
    (∀ c, c ∈ df.cols.filter (fun c => strMem c (tb.cols.map Prod.fst)) ↔
      c ∈ df.cols ∧ c ∈ tb.cols.map Prod.fst) ∧
    (df.cols.filter (fun c => strMem c (tb.cols.map Prod.fst)) ≠ [] →
      validate_and_append_data db df t =
        (some (df.project (df.cols.filter (fun c => strMem c (tb.cols.map Prod.fst)))),
         none)) ∧
    (∀ (insertOk registerOk : Bool) (u : String),
      (lookupTable (uploadToMySQL insertOk registerOk db df t u).2.tables t).map
        Table.cols = some tb.cols) := by
  refine ⟨List.filter_sublist df.cols, ?_, ?_, ?_⟩
  · intro c
    simp [List.mem_filter, strMem_iff]
  · intro hkeep
    unfold validate_and_append_data
    rw [hexist]
    dsimp only
    rw [if_pos hne, if_neg hkeep]
  · intro iok rok u
    have hsome : (lookupTable db.tables t).isSome = true := by rw [hexist]; rfl
    have hins : ∀ df4 : Dataframe,
        (lookupTable (insert_dataframe db df4 t).tables t).map Table.cols =
          some tb.cols := by
      intro df4
      rw [insert_df_eq_some df4 hexist]
      dsimp only
      rw [lookupTable_updateTable _ hsome]
      simp [insertRowsF_cols]
    unfold uploadToMySQL
    by_cases h1 : (u = "" ∨ pyStripS u = "")
    · rw [if_pos h1]
      simp [hexist]
    rw [if_neg h1]
    by_cases h2 : (t = "" ∨ pyStripS t = "")
    · rw [if_pos h2]
      simp [hexist]
    rw [if_neg h2]
    by_cases h3 : "applicant_id" ∉ df.cols
    · rw [if_pos h3]
      simp [hexist]
    rw [if_neg h3]
    dsimp only [ensure_registry]
    rcases hast : astypeIntRows df.cols (dropnaPK df).rows with _ | rows2
    · simp [hexist]
    dsimp only
    rcases hval : validate_and_append_data db
        (normalizeNulls ⟨df.cols, astypeIntDtypes df.cols df.dtypes, rows2⟩) t with ⟨odf, oerr⟩
    rcases oerr with _ | msg
    · rcases odf with _ | df4
      · simp [hexist]
      · dsimp only
        rw [create_table_of_exists df4 hsome]
        rcases iok with _ | _
        · simp [hexist]
        rcases rok with _ | _
        · simpa using hins df4
        · dsimp only [register_table]
          simpa using hins df4
    · rcases odf with _ | df4 <;> simp [hexist]

/-- C1, counterexample: ingesting the same 1-row dataset twice into the same
table leaves the table with 1 row (the second insert writes 0 new rows), but
both ingestions report rowsWritten = 1 and both registry entries record
row_count = 1: the registry row_counts sum to 2, not N = 1, because the
handler registers the submitted row count, not the count of rows actually
inserted. -/
theorem c1_counterexample :
    (uploadToMySQL true true dbEmpty dfOneRow "t" "u").1 = .ok 1 0 ∧
    (uploadToMySQL true true (uploadToMySQL true true dbEmpty dfOneRow "t" "u").2
        dfOneRow "t" "u").1 = .ok 1 0 ∧
    tableRows (uploadToMySQL true true (uploadToMySQL true true dbEmpty dfOneRow "t" "u").2
        dfOneRow "t" "u").2 "t" = some 1 ∧
    ((uploadToMySQL true true (uploadToMySQL true true dbEmpty dfOneRow "t" "u").2
        dfOneRow "t" "u").2.registry.map RegEntry.row_count) = [1, 1] ∧
    ¬ (((uploadToMySQL true true (uploadToMySQL true true dbEmpty dfOneRow "t" "u").2
        dfOneRow "t" "u").2.registry.map RegEntry.row_count).sum = 1) := by
  refine ⟨by decide, by decide, by decide, by decide, by decide⟩

/-- C1, amended: re-ingesting an identical dataset (distinct integer keys,
no nulls) into the same table writes 0 new rows the second time — the table
holds N rows after both runs — but the rowsWritten count reported and the
row_count stored in each registry entry is the submitted row count N, so
after two identical ingests the registry holds 2 entries whose row_count
values sum to 2·N, not N. -/
theorem c1_amended {db : DB} {df : Dataframe} {t u : String}
    (hu : pyStripS u ≠ "") (ht : pyStripS t ≠ "")
    (hnd : df.cols.Nodup)
    (hdlen : df.dtypes.length = df.cols.length)
    (hrlen : ∀ r ∈ df.rows, r.length = df.cols.length)
    (hpk : "applicant_id" ∈ df.cols)
    (hint : ∀ r ∈ df.rows, ∃ n, rowCell df.cols r "applicant_id" = .vInt n)
    (hdist : df.rows.Pairwise
      (fun a b => rowCell df.cols a "applicant_id" ≠ rowCell df.cols b "applicant_id"))
    (hfresh : lookupTable db.tables t = none) :
    (uploadToMySQL true true db df t u).1 = .ok df.rows.length 0 ∧
    tableRows (uploadToMySQL true true db df t u).2 t = some df.rows.length ∧
    (uploadToMySQL true true (uploadToMySQL true true db df t u).2 df t u).1 =
      .ok df.rows.length 0 ∧
    tableRows (uploadToMySQL true true (uploadToMySQL true true db df t u).2 df t u).2 t =
      some df.rows.length ∧
    (uploadToMySQL true true (uploadToMySQL true true db df t u).2 df t u).2.registry =
      db.registry ++
        [⟨t, u, db.clock, df.rows.length⟩, ⟨t, u, db.clock + 1, df.rows.length⟩] := by
  have hnonull : ∀ r ∈ df.rows, rowCell df.cols r "applicant_id" ≠ .vNull := by
    intro r hr
    obtain ⟨n, hn⟩ := hint r hr
    simp [hn]
  have hdrop : dropnaPK df = df := dropnaPK_id hnonull
  have hcoer : ∀ r ∈ (dropnaPK df).rows, ∃ n, rowCell df.cols r "applicant_id" = .vInt n := by
    rw [hdrop]
    exact hint
  have h1 := upload_fresh_eq hu ht hpk hcoer hfresh
  rw [hdrop, Nat.sub_self] at h1
  have htbpk0 : (tableOfDf ⟨df.cols, astypeIntDtypes df.cols df.dtypes, df.rows⟩).pk =
      some "applicant_id" := by
    show (if "applicant_id" ∈ df.cols then some "applicant_id" else none) = _
    rw [if_pos hpk]
  have htbpk1 : (insertRowsF (tableOfDf ⟨df.cols, astypeIntDtypes df.cols df.dtypes, df.rows⟩)
      (df.rows.map (df.cols.zip ·))).pk = some "applicant_id" := by
    rw [insertRowsF_pk]
    exact htbpk0
  have htbcols1 : (insertRowsF (tableOfDf ⟨df.cols, astypeIntDtypes df.cols df.dtypes, df.rows⟩)
      (df.rows.map (df.cols.zip ·))).cols.map Prod.fst = df.cols := by
    rw [insertRowsF_cols]
    show (df.cols.zip ((astypeIntDtypes df.cols df.dtypes).map infer_mysql_type)).map
      Prod.fst = df.cols
    apply List.map_fst_zip
    rw [List.length_map, astypeIntDtypes_length, hdlen]
  have hpairs : (df.rows.map (df.cols.zip ·)).Pairwise
      (fun a b => lookupVal a "applicant_id" ≠ lookupVal b "applicant_id") := by
    rw [List.pairwise_map]
    refine hdist.imp ?_
    intro a b hab
    rw [lookupVal_zip, lookupVal_zip]
    exact hab
  have hrows1 : (insertRowsF (tableOfDf ⟨df.cols, astypeIntDtypes df.cols df.dtypes, df.rows⟩)
      (df.rows.map (df.cols.zip ·))).rows = df.rows.map (df.cols.zip ·) := by
    rw [insertRowsF_all_new htbpk0
      (fun nr _ s hs => absurd hs (List.not_mem_nil s)) hpairs]
    exact List.nil_append _
  have hexist1 : lookupTable (db.tables ++
      [(t, insertRowsF (tableOfDf ⟨df.cols, astypeIntDtypes df.cols df.dtypes, df.rows⟩)
        (df.rows.map (df.cols.zip ·)))]) t =
      some (insertRowsF (tableOfDf ⟨df.cols, astypeIntDtypes df.cols df.dtypes, df.rows⟩)
        (df.rows.map (df.cols.zip ·))) :=
    lookupTable_append_self _ hfresh
  have hdup1 : ∀ r ∈ df.rows,
      ∃ s ∈ (insertRowsF (tableOfDf ⟨df.cols, astypeIntDtypes df.cols df.dtypes, df.rows⟩)
        (df.rows.map (df.cols.zip ·))).rows,
        lookupVal s "applicant_id" = rowCell df.cols r "applicant_id" := by
    intro r hr
    refine ⟨df.cols.zip r, ?_, lookupVal_zip _ _ _⟩
    rw [hrows1]
    exact List.mem_map_of_mem _ hr
  have h2 := @upload_existing_identical
    ⟨db.tables ++
      [(t, insertRowsF (tableOfDf ⟨df.cols, astypeIntDtypes df.cols df.dtypes, df.rows⟩)
        (df.rows.map (df.cols.zip ·)))],
     db.registry ++ [⟨t, u, db.clock, df.rows.length⟩], db.clock + 1⟩
    df t u
    (insertRowsF (tableOfDf ⟨df.cols, astypeIntDtypes df.cols df.dtypes, df.rows⟩)
      (df.rows.map (df.cols.zip ·)))
    hu ht hnd hdlen hrlen hpk hint hexist1 htbcols1 htbpk1 hdup1
  refine ⟨?_, ?_, ?_, ?_, ?_⟩
  · rw [h1]
  · rw [h1]
    simp [tableRows, hexist1, hrows1]
  · rw [h1]
    dsimp only
    rw [h2]
  · rw [h1]
    dsimp only
    rw [h2]
    simp [tableRows, hexist1, hrows1]
  · rw [h1]
    dsimp only
    rw [h2]
    simp

/-- Witness for C1 at a concrete two-row dataset and empty database. -/
theorem c1_witness :
    (uploadToMySQL true true dbEmpty dfTwoRows "t" "u").1 = .ok 2 0 :=
  (c1_amended (by decide) (by decide) (by decide) (by decide) (by decide) (by decide)
    (by
      intro r hr
      rw [show dfTwoRows.rows =
        [[Value.vInt 1, Value.vInt 30], [Value.vInt 2, Value.vInt 40]] from rfl] at hr
      simp only [List.mem_cons, List.not_mem_nil, or_false] at hr
      rcases hr with h | h <;> subst h
      · exact ⟨1, rfl⟩
      · exact ⟨2, rfl⟩)
    (by decide) (by decide)).1

/-- Witness for C3 at a table whose single column is disjoint from the
incoming dataset's columns. -/
theorem c3_witness :
    uploadToMySQL true true dbDisjoint dfOneRow "t" "u" =
      (.errValidation "No matching columns found in existing table.", dbDisjoint) :=
  c3_empty_intersection true true (by decide) (by decide) (by decide)
    (by
      intro r hr
      rw [show (dropnaPK dfOneRow).rows = [[Value.vInt 7]] from rfl] at hr
      simp only [List.mem_cons, List.not_mem_nil, or_false] at hr
      subst hr
      exact ⟨7, rfl⟩)
    (rfl : lookupTable dbDisjoint.tables "t" = some ⟨[("x", "INT")], none, []⟩)
    (by decide) (by decide)

/-- Witness for C4 at a dataset missing `applicant_id` and a dataset whose
key column holds a non-numeric string. -/
theorem c4_witness :
    uploadToMySQL true true dbEmpty ⟨["age"], [.int64], [[.vInt 3]]⟩ "t" "u" =
      (.errMissingPKCol, dbEmpty) ∧
    uploadToMySQL true true dbEmpty ⟨["applicant_id"], [.objectDt], [[.vStr "abc"]]⟩
        "t" "u" = (.errPKNotCoercible, dbEmpty) :=
  ⟨(c4_pk_validation true true (by decide) (by decide)).1 (by decide),
   (c4_pk_validation true true (by decide) (by decide)).2 (by decide) (by decide)⟩

/-- Witness for C5 at a three-row dataset with exactly one null key. -/
theorem c5_witness :
    (uploadToMySQL true true dbEmpty dfWithNull "t" "u").1 = .ok 2 1 :=
  c5_null_drop (by decide) (by decide) (by decide)
    (by
      intro r hr
      rw [show dfWithNull.rows =
        [[Value.vInt 1, Value.vInt 30], [Value.vNull, Value.vInt 40],
         [Value.vInt 3, Value.vNull]] from rfl] at hr
      simp only [List.mem_cons, List.not_mem_nil, or_false] at hr
      rcases hr with h | h | h <;> subst h
      · exact Or.inr ⟨1, rfl⟩
      · exact Or.inl rfl
      · exact Or.inr ⟨3, rfl⟩)
    (by decide)

/-- Witness for C8 at a dataset carrying an extra column the existing table
lacks: the usable columns are the intersection in incoming order. -/
theorem c8_witness :
    validate_and_append_data dbWithT dfExtra "t" =
      (some (dfExtra.project ["applicant_id", "age"]), none) :=
  (c8_intersection_no_widening
    (rfl : lookupTable dbWithT.tables "t" =
      some ⟨[("applicant_id", "INT"), ("age", "INT")], some "applicant_id", []⟩)
    (by decide)).2.2.1 (by decide)

end CreditDefault
